import Mathlib

/-!
Shallow embedding of the heap-space management layer (`src/space.h` of
AOSIP/platform_art): the `Space` base contract, the growable `AllocSpace`
backed by an embedded allocator, and the read-only `ImageSpace`.

Addresses and sizes are modelled as `Nat`. Bitmap objects are modelled by an
identity together with their contents, since the claims speak about which
bitmap *object* an accessor returns and about bitmap contents being untouched.
Methods whose bodies are inline in `space.h` are translated directly from the
header; methods only declared there (bodies in the missing `space.cc`) are
modelled from the specification and say so in their doc comment.
-/

namespace ArtSpace

/-- `enum GcRetentionPolicy` from space.h: GCRP_NEVER_COLLECT,
GCRP_ALWAYS_COLLECT, GCRP_FULL_COLLECT. -/
inductive GcRetentionPolicy : Type
  | GCRP_NEVER_COLLECT : GcRetentionPolicy
  | GCRP_ALWAYS_COLLECT : GcRetentionPolicy
  | GCRP_FULL_COLLECT : GcRetentionPolicy
  deriving DecidableEq, Repr

open GcRetentionPolicy

/-- A `SpaceBitmap` object: an identity (distinguishing distinct bitmap
objects) plus its contents, the set of marked addresses. -/
structure SpaceBitmap : Type where
  ident : Nat
  bits : List Nat
  deriving DecidableEq, Repr

/-- The `MemMap` collaborator: an OS-backed contiguous reservation with a
fixed start address and a size. -/
structure MemMap : Type where
  map_begin : Nat
  map_size : Nat
  deriving DecidableEq, Repr

/-- `MemMap` start address. -/
def MemMap.MBegin (m : MemMap) : Nat := m.map_begin

/-- `MemMap` one-past-the-end address. -/
def MemMap.MEnd (m : MemMap) : Nat := m.map_begin + m.map_size

/-- `MemMap::Size`, the reservation size. -/
def MemMap.MSize (m : MemMap) : Nat := m.map_size

/-- Modelled from the spec: the embedded general-purpose allocator (dlmalloc
`mspace`, internals in the missing dlmalloc sources) as a black box exposing
a current footprint (bytes obtained from the region) and a footprint limit
(the ceiling the allocator is currently permitted to request). -/
structure Mspace : Type where
  footprint : Nat
  footprint_limit : Nat
  deriving DecidableEq, Repr

/-- Modelled from the spec: the allocator's allocate operation (body in the
missing allocator sources). It satisfies a request of `num_bytes` by growing
the footprint, failing with a null result exactly when the footprint limit
would be exceeded. -/
def Mspace.alloc (m : Mspace) (num_bytes : Nat) : Option Mspace :=
  if m.footprint + num_bytes ≤ m.footprint_limit then
    some { m with footprint := m.footprint + num_bytes }
  else
    none

/-- Modelled from the spec: the allocator's free operation (body in the
missing allocator sources) returns storage, shrinking the footprint. -/
def Mspace.mfree (m : Mspace) (num_bytes : Nat) : Mspace :=
  { m with footprint := m.footprint - num_bytes }

/-- `class AllocSpace : public Space` from space.h: the base `Space` fields
(name_, mem_map_, begin_, end_, gc_retention_policy_) together with the
AllocSpace fields (live_bitmap_, mark_bitmap_, mspace_, growth_limit_). -/
structure AllocSpace : Type where
  name_ : String
  mem_map_ : MemMap
  begin_ : Nat
  end_ : Nat
  gc_retention_policy_ : GcRetentionPolicy
  live_bitmap_ : SpaceBitmap
  mark_bitmap_ : SpaceBitmap
  mspace_ : Mspace
  growth_limit_ : Nat
  deriving DecidableEq, Repr

namespace AllocSpace

/-- `Space::Begin`: `return begin_;` -/
def Begin (s : AllocSpace) : Nat := s.begin_

/-- `Space::End`: `return end_;` -/
def SEnd (s : AllocSpace) : Nat := s.end_

/-- `Space::Contains`: `return Begin() <= byte_ptr && byte_ptr < End();` -/
def Contains (s : AllocSpace) (obj : Nat) : Bool :=
  decide (s.Begin ≤ obj) && decide (obj < s.SEnd)

/-- `Space::Size`: `return End() - Begin();` -/
def Size (s : AllocSpace) : Nat := s.SEnd - s.Begin

/-- `AllocSpace::Capacity` override: `return growth_limit_;` -/
def Capacity (s : AllocSpace) : Nat := s.growth_limit_

/-- `AllocSpace::NonGrowthLimitCapacity` override:
`return mem_map_->End() - mem_map_->Begin();` -/
def NonGrowthLimitCapacity (s : AllocSpace) : Nat :=
  s.mem_map_.MEnd - s.mem_map_.MBegin

/-- `Space::GetGcRetentionPolicy`: `return gc_retention_policy_;` -/
def GetGcRetentionPolicy (s : AllocSpace) : GcRetentionPolicy :=
  s.gc_retention_policy_

/-- `Space::SetGcRetentionPolicy`:
`gc_retention_policy_ = gc_retention_policy;` -/
def SetGcRetentionPolicy (s : AllocSpace) (p : GcRetentionPolicy) :
    AllocSpace :=
  { s with gc_retention_policy_ := p }

/-- `AllocSpace::IsAllocSpace` override:
`return gc_retention_policy_ != GCRP_NEVER_COLLECT;` -/
def IsAllocSpace (s : AllocSpace) : Bool :=
  decide (s.gc_retention_policy_ ≠ GCRP_NEVER_COLLECT)

/-- `AllocSpace::IsImageSpace` override: `return false;` -/
def IsImageSpace (_s : AllocSpace) : Bool := false

/-- `AllocSpace::IsZygoteSpace` override:
`return gc_retention_policy_ == GCRP_FULL_COLLECT;` -/
def IsZygoteSpace (s : AllocSpace) : Bool :=
  decide (s.gc_retention_policy_ = GCRP_FULL_COLLECT)

/-- `AllocSpace::GetLiveBitmap` override: `return live_bitmap_.get();` -/
def GetLiveBitmap (s : AllocSpace) : SpaceBitmap := s.live_bitmap_

/-- `AllocSpace::GetMarkBitmap` override: `return mark_bitmap_.get();` -/
def GetMarkBitmap (s : AllocSpace) : SpaceBitmap := s.mark_bitmap_

/-- `Space::GetName`: `return name_;` -/
def GetName (s : AllocSpace) : String := s.name_

/-- `AllocSpace::ClearGrowthLimit`, inline in space.h:
`growth_limit_ = NonGrowthLimitCapacity();` -/
def ClearGrowthLimit (s : AllocSpace) : AllocSpace :=
  { s with growth_limit_ := s.NonGrowthLimitCapacity }

/-- `AllocSpace::GetFootprintLimit` (body in the missing space.cc).
Modelled from the spec: exposes the allocator's own ceiling. -/
def GetFootprintLimit (s : AllocSpace) : Nat := s.mspace_.footprint_limit

/-- Modelled from the spec: `AllocSpace::SetFootprintLimit` (body in the
missing space.cc) sets the allocator's ceiling; `growthLimit` is the hard
ceiling that SetFootprintLimit itself may never exceed, so the request is
clamped to the growth limit. -/
def SetFootprintLimit (s : AllocSpace) (limit : Nat) : AllocSpace :=
  { s with mspace_ :=
      { s.mspace_ with footprint_limit := min limit s.growth_limit_ } }

/-- Modelled from the spec: `AllocSpace::SetGrowthLimit` (body in the missing
space.cc) sets the pre-fork growth limit, keeping the invariant
`growthLimit <= region.capacity()`. -/
def SetGrowthLimit (s : AllocSpace) (growth_limit : Nat) : AllocSpace :=
  { s with growth_limit_ := min growth_limit s.NonGrowthLimitCapacity }

/-- Modelled from the spec: `AllocSpace::AllocWithoutGrowth` (body in the
missing space.cc) delegates to the embedded allocator without permitting
growth beyond the allocator's current footprint limit; a null result means
the footprint limit was reached. On success the returned pointer is the
storage the allocator handed out and `end_` tracks the allocator's
consumption of the reservation. -/
def AllocWithoutGrowth (s : AllocSpace) (num_bytes : Nat) :
    Option Nat × AllocSpace :=
  match s.mspace_.alloc num_bytes with
  | none => (none, s)
  | some m =>
      (some (s.begin_ + s.mspace_.footprint),
       { s with mspace_ := m, end_ := s.begin_ + m.footprint })

/-- Modelled from the spec: `AllocSpace::AllocWithGrowth` (body in the
missing space.cc) raises the allocator's footprint limit up to
`growthLimit` (never beyond it) before delegating to the without-growth
path, so a null result means the growth limit itself is exhausted. -/
def AllocWithGrowth (s : AllocSpace) (num_bytes : Nat) :
    Option Nat × AllocSpace :=
  AllocWithoutGrowth
    { s with mspace_ := { s.mspace_ with footprint_limit := s.growth_limit_ } }
    num_bytes

/-- Modelled from the spec: `AllocSpace::Free` (body in the missing space.cc)
returns one object's storage of the given bookkeeping size to the embedded
allocator. -/
def Free (s : AllocSpace) (num_bytes : Nat) : AllocSpace :=
  { s with mspace_ := s.mspace_.mfree num_bytes }

/-- Modelled from the spec: `AllocSpace::SwapBitmaps` (body in the missing
space.cc) exchanges which bitmap object is exposed as live versus mark;
constant-time, it does not touch either bitmap's contents. -/
def SwapBitmaps (s : AllocSpace) : AllocSpace :=
  { s with live_bitmap_ := s.mark_bitmap_, mark_bitmap_ := s.live_bitmap_ }

/-- Modelled from the spec: `AllocSpace::CreateZygoteSpace` (body in the
missing space.cc). The calling space retains `[begin, end)` as-is and its
retention policy becomes FullCollectOnly; a new AllocSpace is constructed
over the unused tail of the same reservation, `[end, NonGrowthLimitCapacity())`,
with retention policy AlwaysCollect, a freshly created allocator and fresh
bitmaps. Returns the updated calling space paired with the new space. -/
def CreateZygoteSpace (s : AllocSpace) : AllocSpace × AllocSpace :=
  let tail : Nat := s.NonGrowthLimitCapacity - (s.SEnd - s.Begin)
  let zygote : AllocSpace :=
    { s with gc_retention_policy_ := GCRP_FULL_COLLECT }
  let fresh : AllocSpace :=
    { name_ := s.name_ ++ " zygote"
      mem_map_ := { map_begin := s.end_, map_size := tail }
      begin_ := s.end_
      end_ := s.end_
      gc_retention_policy_ := GCRP_ALWAYS_COLLECT
      live_bitmap_ := { ident := 2 * s.live_bitmap_.ident + 2, bits := [] }
      mark_bitmap_ := { ident := 2 * s.mark_bitmap_.ident + 3, bits := [] }
      mspace_ := { footprint := 0, footprint_limit := 0 }
      growth_limit_ := tail }
  (zygote, fresh)

end AllocSpace

/-- `class ImageSpace : public Space` from space.h: the base `Space` fields
plus the single bitmap serving as both live and mark view. -/
structure ImageSpace : Type where
  name_ : String
  mem_map_ : MemMap
  begin_ : Nat
  end_ : Nat
  gc_retention_policy_ : GcRetentionPolicy
  live_bitmap_ : SpaceBitmap
  deriving DecidableEq, Repr

namespace ImageSpace

/-- `Space::Begin` for an ImageSpace. -/
def Begin (s : ImageSpace) : Nat := s.begin_

/-- `Space::End` for an ImageSpace. -/
def SEnd (s : ImageSpace) : Nat := s.end_

/-- `Space::Contains` for an ImageSpace:
`return Begin() <= byte_ptr && byte_ptr < End();` -/
def Contains (s : ImageSpace) (obj : Nat) : Bool :=
  decide (s.Begin ≤ obj) && decide (obj < s.SEnd)

/-- `Space::Size` for an ImageSpace: `return End() - Begin();` -/
def Size (s : ImageSpace) : Nat := s.SEnd - s.Begin

/-- `ImageSpace::IsAllocSpace` override: `return false;` -/
def IsAllocSpace (_s : ImageSpace) : Bool := false

/-- `ImageSpace::IsImageSpace` override: `return true;` -/
def IsImageSpace (_s : ImageSpace) : Bool := true

/-- `ImageSpace::IsZygoteSpace` override: `return false;` -/
def IsZygoteSpace (_s : ImageSpace) : Bool := false

/-- `ImageSpace::GetLiveBitmap` override: `return live_bitmap_.get();` -/
def GetLiveBitmap (s : ImageSpace) : SpaceBitmap := s.live_bitmap_

/-- `ImageSpace::GetMarkBitmap` override: ImageSpaces have the same bitmap
for both live and marked, so `return live_bitmap_.get();` -/
def GetMarkBitmap (s : ImageSpace) : SpaceBitmap := s.live_bitmap_

end ImageSpace

end ArtSpace
namespace ArtSpace

/-- A concrete AllocSpace used to instantiate theorems with hypotheses. -/
def sampleAlloc : AllocSpace :=
  { name_ := "alloc space"
    mem_map_ := { map_begin := 100, map_size := 64 }
    begin_ := 100
    end_ := 108
    gc_retention_policy_ := GcRetentionPolicy.GCRP_ALWAYS_COLLECT
    live_bitmap_ := { ident := 0, bits := [104] }
    mark_bitmap_ := { ident := 1, bits := [] }
    mspace_ := { footprint := 8, footprint_limit := 16 }
    growth_limit_ := 32 }

/-- A concrete ImageSpace used to instantiate theorems with hypotheses. -/
def sampleImage : ImageSpace :=
  { name_ := "image space"
    mem_map_ := { map_begin := 200, map_size := 40 }
    begin_ := 200
    end_ := 240
    gc_retention_policy_ := GcRetentionPolicy.GCRP_NEVER_COLLECT
    live_bitmap_ := { ident := 2, bits := [208] } }

open GcRetentionPolicy AllocSpace ImageSpace

/-- C1: `CreateZygoteSpace` leaves the original space's `Begin` and `End`
unchanged and makes its retention policy FullCollectOnly; the returned new
space has `Begin = End = E`, `NonGrowthLimitCapacity = C - (E - B)` and
policy AlwaysCollect; the two spaces' address ranges are disjoint and
contiguous. -/
theorem C1_create_zygote_space (s : AllocSpace) :
    (s.CreateZygoteSpace.1.Begin = s.Begin ∧
      s.CreateZygoteSpace.1.SEnd = s.SEnd ∧
      s.CreateZygoteSpace.1.GetGcRetentionPolicy = GCRP_FULL_COLLECT) ∧
    (s.CreateZygoteSpace.2.Begin = s.SEnd ∧
      s.CreateZygoteSpace.2.SEnd = s.SEnd ∧
      s.CreateZygoteSpace.2.NonGrowthLimitCapacity =
        s.NonGrowthLimitCapacity - (s.SEnd - s.Begin) ∧
      s.CreateZygoteSpace.2.GetGcRetentionPolicy = GCRP_ALWAYS_COLLECT) ∧
    (∀ a : Nat,
      ¬(s.CreateZygoteSpace.1.Begin ≤ a ∧ a < s.CreateZygoteSpace.1.SEnd ∧
        s.CreateZygoteSpace.2.mem_map_.MBegin ≤ a ∧
        a < s.CreateZygoteSpace.2.mem_map_.MEnd)) ∧
    s.CreateZygoteSpace.1.SEnd = s.CreateZygoteSpace.2.mem_map_.MBegin := by
  refine ⟨⟨rfl, rfl, rfl⟩, ⟨rfl, rfl, ?_, rfl⟩, ?_, rfl⟩
  · simp [AllocSpace.CreateZygoteSpace, AllocSpace.NonGrowthLimitCapacity,
      MemMap.MEnd, MemMap.MBegin]
  · intro a h
    rcases h with ⟨_, h2, h3, _⟩
    simp only [AllocSpace.CreateZygoteSpace, AllocSpace.SEnd,
      MemMap.MBegin] at h2 h3
    omega

/-- C2: the invariant `Capacity() <= NonGrowthLimitCapacity()` of an
AllocSpace. -/
def CapacityInv (s : AllocSpace) : Prop :=
  s.Capacity ≤ s.NonGrowthLimitCapacity

instance (s : AllocSpace) : Decidable (CapacityInv s) := by
  unfold CapacityInv; infer_instance

/-- C2: `Capacity() <= NonGrowthLimitCapacity()` is preserved by every
operation: allocation with and without growth, free, SetFootprintLimit,
SetGrowthLimit, ClearGrowthLimit, and both spaces produced by
CreateZygoteSpace. -/
theorem C2_capacity_le_reservation (s : AllocSpace) (n limit gl : Nat)
    (h : CapacityInv s) :
    CapacityInv (s.AllocWithoutGrowth n).2 ∧
    CapacityInv (s.AllocWithGrowth n).2 ∧
    CapacityInv (s.Free n) ∧
    CapacityInv (s.SetFootprintLimit limit) ∧
    CapacityInv (s.SetGrowthLimit gl) ∧
    CapacityInv s.ClearGrowthLimit ∧
    CapacityInv s.CreateZygoteSpace.1 ∧
    CapacityInv s.CreateZygoteSpace.2 := by
  unfold CapacityInv AllocSpace.Capacity AllocSpace.NonGrowthLimitCapacity at *
  refine ⟨?_, ?_, h, h, ?_, ?_, h, ?_⟩
  · unfold AllocSpace.AllocWithoutGrowth
    cases s.mspace_.alloc n <;> simpa using h
  · unfold AllocSpace.AllocWithGrowth AllocSpace.AllocWithoutGrowth
    cases (Mspace.alloc { s.mspace_ with footprint_limit := s.growth_limit_ } n) <;>
      simpa using h
  · simp only [AllocSpace.SetGrowthLimit, AllocSpace.NonGrowthLimitCapacity]
    omega
  · simp [AllocSpace.ClearGrowthLimit, AllocSpace.NonGrowthLimitCapacity]
  · simp [AllocSpace.CreateZygoteSpace, MemMap.MEnd, MemMap.MBegin]

/-- C2 witness: the invariant theorem instantiated at a concrete space. -/
theorem C2_capacity_le_reservation_witness :
    CapacityInv sampleAlloc ∧
    (CapacityInv (sampleAlloc.AllocWithoutGrowth 4).2 ∧
     CapacityInv (sampleAlloc.AllocWithGrowth 4).2 ∧
     CapacityInv (sampleAlloc.Free 4) ∧
     CapacityInv (sampleAlloc.SetFootprintLimit 20) ∧
     CapacityInv (sampleAlloc.SetGrowthLimit 48) ∧
     CapacityInv sampleAlloc.ClearGrowthLimit ∧
     CapacityInv sampleAlloc.CreateZygoteSpace.1 ∧
     CapacityInv sampleAlloc.CreateZygoteSpace.2) :=
  ⟨by decide, C2_capacity_le_reservation sampleAlloc 4 20 48 (by decide)⟩

/-- C3: after one `ClearGrowthLimit()`, `Capacity() == NonGrowthLimitCapacity()`,
and a second `ClearGrowthLimit()` leaves the state unchanged (idempotence). -/
theorem C3_clear_growth_limit_idempotent (s : AllocSpace) :
    s.ClearGrowthLimit.Capacity = s.ClearGrowthLimit.NonGrowthLimitCapacity ∧
    s.ClearGrowthLimit.ClearGrowthLimit = s.ClearGrowthLimit :=
  ⟨rfl, rfl⟩

/-- C4: allocation without growth never increases `Capacity()`, returns a
null result exactly when the allocator's footprint limit is reached, and on
success moves `End()` at most up to `Begin() + Capacity()`; allocation with
growth raises the allocator's footprint limit to the growth limit (never
beyond it) before delegating, and returns null only if the growth limit
itself is exhausted. -/
theorem C4_alloc_with_and_without_growth (s : AllocSpace) (n : Nat)
    (hfl : s.GetFootprintLimit ≤ s.Capacity) :
    (s.AllocWithoutGrowth n).2.Capacity = s.Capacity ∧
    ((s.AllocWithoutGrowth n).1 = none ↔
      s.GetFootprintLimit < s.mspace_.footprint + n) ∧
    ((s.AllocWithoutGrowth n).1 ≠ none →
      (s.AllocWithoutGrowth n).2.SEnd ≤
        (s.AllocWithoutGrowth n).2.Begin + s.Capacity) ∧
    (s.AllocWithGrowth n).2.GetFootprintLimit = s.Capacity ∧
    (s.AllocWithGrowth n).2.Capacity = s.Capacity ∧
    ((s.AllocWithGrowth n).1 = none ↔
      s.Capacity < s.mspace_.footprint + n) := by
  unfold AllocSpace.AllocWithGrowth AllocSpace.AllocWithoutGrowth Mspace.alloc
    AllocSpace.GetFootprintLimit AllocSpace.Capacity AllocSpace.SEnd
    AllocSpace.Begin at *
  by_cases h1 : s.mspace_.footprint + n ≤ s.mspace_.footprint_limit <;>
    by_cases h2 : s.mspace_.footprint + n ≤ s.growth_limit_ <;>
      simp [h1, h2] <;> omega

/-- C4 witness: the allocation theorem instantiated at a concrete space and
request size. -/
theorem C4_alloc_with_and_without_growth_witness :
    sampleAlloc.GetFootprintLimit ≤ sampleAlloc.Capacity ∧
    ((sampleAlloc.AllocWithoutGrowth 4).1 = none ↔
      sampleAlloc.GetFootprintLimit < sampleAlloc.mspace_.footprint + 4) ∧
    ((sampleAlloc.AllocWithGrowth 4).1 = none ↔
      sampleAlloc.Capacity < sampleAlloc.mspace_.footprint + 4) :=
  ⟨by decide,
    (C4_alloc_with_and_without_growth sampleAlloc 4 (by decide)).2.1,
    (C4_alloc_with_and_without_growth sampleAlloc 4 (by decide)).2.2.2.2.2⟩

/-- C5: after `SetGcRetentionPolicy(p)`, `IsAllocSpace()` holds iff `p` is not
NeverCollect and `IsZygoteSpace()` holds iff `p` is FullCollectOnly; both
predicates depend only on the retention-policy field. -/
theorem C5_policy_classification (s : AllocSpace) (p : GcRetentionPolicy) :
    ((s.SetGcRetentionPolicy p).IsAllocSpace = true ↔ p ≠ GCRP_NEVER_COLLECT) ∧
    ((s.SetGcRetentionPolicy p).IsZygoteSpace = true ↔ p = GCRP_FULL_COLLECT) ∧
    (∀ t : AllocSpace, t.gc_retention_policy_ = s.gc_retention_policy_ →
      t.IsAllocSpace = s.IsAllocSpace ∧ t.IsZygoteSpace = s.IsZygoteSpace) := by
  refine ⟨?_, ?_, ?_⟩
  · simp [AllocSpace.SetGcRetentionPolicy, AllocSpace.IsAllocSpace]
  · simp [AllocSpace.SetGcRetentionPolicy, AllocSpace.IsZygoteSpace]
  · intro t ht
    simp [AllocSpace.IsAllocSpace, AllocSpace.IsZygoteSpace, ht]

/-- C6: for every ImageSpace, `IsImageSpace()` is true, `IsAllocSpace()` and
`IsZygoteSpace()` are false, and `GetMarkBitmap()` returns the identical
bitmap object as `GetLiveBitmap()`. -/
theorem C6_image_space_overrides (s : ImageSpace) :
    s.IsImageSpace = true ∧ s.IsAllocSpace = false ∧
    s.IsZygoteSpace = false ∧ s.GetMarkBitmap = s.GetLiveBitmap :=
  ⟨rfl, rfl, rfl, rfl⟩

/-- C7: for both space kinds, `Contains(addr)` holds iff
`Begin() <= addr < End()`; in particular it is false at `End()` and true at
`Begin()` whenever `Begin() != End()` (given the space invariant
`begin <= end`). -/
theorem C7_contains_iff (sa : AllocSpace) (si : ImageSpace) (addr : Nat)
    (ha : sa.begin_ ≤ sa.end_) (hi : si.begin_ ≤ si.end_) :
    (sa.Contains addr = true ↔ sa.Begin ≤ addr ∧ addr < sa.SEnd) ∧
    (si.Contains addr = true ↔ si.Begin ≤ addr ∧ addr < si.SEnd) ∧
    sa.Contains sa.SEnd = false ∧
    si.Contains si.SEnd = false ∧
    (sa.Begin ≠ sa.SEnd → sa.Contains sa.Begin = true) ∧
    (si.Begin ≠ si.SEnd → si.Contains si.Begin = true) := by
  unfold AllocSpace.Contains ImageSpace.Contains AllocSpace.Begin
    AllocSpace.SEnd ImageSpace.Begin ImageSpace.SEnd at *
  refine ⟨by simp, by simp, by simp, by simp, ?_, ?_⟩ <;>
    · intro hne
      simp only [Bool.and_eq_true, decide_eq_true_eq]
      omega

/-- C7 witness: the Contains characterization at concrete spaces and a
concrete address. -/
theorem C7_contains_iff_witness :
    sampleAlloc.begin_ ≤ sampleAlloc.end_ ∧
    sampleImage.begin_ ≤ sampleImage.end_ ∧
    (sampleAlloc.Contains sampleAlloc.SEnd = false ∧
     sampleImage.Contains sampleImage.SEnd = false ∧
     (sampleAlloc.Begin ≠ sampleAlloc.SEnd →
       sampleAlloc.Contains sampleAlloc.Begin = true)) :=
  ⟨by decide, by decide,
    (C7_contains_iff sampleAlloc sampleImage 104 (by decide)
        (by decide)).2.2.1,
    (C7_contains_iff sampleAlloc sampleImage 104 (by decide)
        (by decide)).2.2.2.1,
    (C7_contains_iff sampleAlloc sampleImage 104 (by decide)
        (by decide)).2.2.2.2.1⟩

/-- C8: `SwapBitmaps` applied twice restores the original live/mark bitmap
assignment; a single `SwapBitmaps` exchanges exactly the two bitmap roles,
modifies no other field, and leaves both bitmap objects (hence their
contents) intact. -/
theorem C8_swap_bitmaps_roundtrip (s : AllocSpace) :
    s.SwapBitmaps.SwapBitmaps = s ∧
    s.SwapBitmaps.GetLiveBitmap = s.GetMarkBitmap ∧
    s.SwapBitmaps.GetMarkBitmap = s.GetLiveBitmap ∧
    s.SwapBitmaps.GetLiveBitmap.bits = s.GetMarkBitmap.bits ∧
    s.SwapBitmaps.GetMarkBitmap.bits = s.GetLiveBitmap.bits ∧
    s.SwapBitmaps.Begin = s.Begin ∧
    s.SwapBitmaps.SEnd = s.SEnd ∧
    s.SwapBitmaps.Capacity = s.Capacity ∧
    s.SwapBitmaps.GetName = s.GetName ∧
    s.SwapBitmaps.GetGcRetentionPolicy = s.GetGcRetentionPolicy ∧
    s.SwapBitmaps.mspace_ = s.mspace_ :=
  ⟨rfl, rfl, rfl, rfl, rfl, rfl, rfl, rfl, rfl, rfl, rfl⟩

/-- C9: for both space kinds, `Size()` equals `End() - Begin()`, also in the
states reached by allocation with or without growth and by the zygote
split. -/
theorem C9_size_eq_end_minus_begin (sa : AllocSpace) (si : ImageSpace)
    (n : Nat) :
    sa.Size = sa.SEnd - sa.Begin ∧
    si.Size = si.SEnd - si.Begin ∧
    (sa.AllocWithoutGrowth n).2.Size =
      (sa.AllocWithoutGrowth n).2.SEnd - (sa.AllocWithoutGrowth n).2.Begin ∧
    (sa.AllocWithGrowth n).2.Size =
      (sa.AllocWithGrowth n).2.SEnd - (sa.AllocWithGrowth n).2.Begin ∧
    sa.CreateZygoteSpace.1.Size =
      sa.CreateZygoteSpace.1.SEnd - sa.CreateZygoteSpace.1.Begin ∧
    sa.CreateZygoteSpace.2.Size =
      sa.CreateZygoteSpace.2.SEnd - sa.CreateZygoteSpace.2.Begin :=
  ⟨rfl, rfl, rfl, rfl, rfl, rfl⟩

/-- C10: `ClearGrowthLimit()` modifies only the growth limit: `Begin`, `End`,
`Size`, `NonGrowthLimitCapacity`, the name, the retention policy, and the
live and mark bitmap objects are all unchanged. -/
theorem C10_clear_growth_limit_frame (s : AllocSpace) :
    s.ClearGrowthLimit.Begin = s.Begin ∧
    s.ClearGrowthLimit.SEnd = s.SEnd ∧
    s.ClearGrowthLimit.Size = s.Size ∧
    s.ClearGrowthLimit.NonGrowthLimitCapacity = s.NonGrowthLimitCapacity ∧
    s.ClearGrowthLimit.GetName = s.GetName ∧
    s.ClearGrowthLimit.GetGcRetentionPolicy = s.GetGcRetentionPolicy ∧
    s.ClearGrowthLimit.GetLiveBitmap = s.GetLiveBitmap ∧
    s.ClearGrowthLimit.GetMarkBitmap = s.GetMarkBitmap :=
  ⟨rfl, rfl, rfl, rfl, rfl, rfl, rfl, rfl⟩

end ArtSpace
